import Mathlib

/-!
Shallow embedding of the task-lifecycle service in `src/app.py` and
`src/server.py` (the "Guruwalk Agent API").  Both files implement the same
HTTP surface: `create_task` mints a uuid, inserts a `pending` record into the
module-level `tasks` dict and schedules a background executor; the executor
flips the record to `running`, provisions a browser and an LLM, drives the
agent and finalizes the record to `completed` or `failed`; `get_task` answers
status queries.  `server.py` additionally keeps process-wide lazy singletons
`browser_session` / `llm_model` behind `get_browser()` / `get_llm()`.

Modelling conventions:
* Python exceptions are their `str(e)` strings; `except Exception` handlers
  become total wrappers over an `Except`-valued attempt.
* `BrowserSession` / `ChatOpenAI` objects are identified by the numeric order
  of their construction; `started` records which browser objects completed
  `start()` successfully.
* The `tasks` dict is an association list with Python's insert-or-overwrite
  assignment.
* Scheduling is asyncio's: a coroutine is preempted only at `await`
  expressions, so the record states other coroutines can observe are the
  states at suspension points (and the final state).
-/

namespace GuruwalkAgent

/-- Task lifecycle states stored in `tasks[task_id]["status"]`. -/
inductive Status
  | pending
  | running
  | completed
  | failed
deriving DecidableEq, Repr

/-- `completed` and `failed` are the terminal states of the lifecycle. -/
def Status.isTerminal : Status → Bool
  | Status.completed => true
  | Status.failed => true
  | _ => false

/-- Usage metrics payload (`result.usage.model_dump()` output), left abstract. -/
abbrev Usage := Nat

/-- The object returned by `agent.run()`: it carries optional usage metrics. -/
structure AgentHistory where
  usage : Option Usage
deriving DecidableEq, Repr

/-- The two result-dict shapes the executors store.
`app.py` line 150 stores `{"success": True}`;
`server.py` lines 186-189 store `{"success": True, "usage": <dump or None>}`. -/
inductive TaskResult
  | appSuccess
  | serverSuccess (usage : Option Usage)
deriving DecidableEq, Repr

/-- The value of the `"success"` key of a stored result dict. -/
def TaskResult.successValue : TaskResult → Bool
  | TaskResult.appSuccess => true
  | TaskResult.serverSuccess _ => true

/-- Whether the stored result dict has a `"usage"` key at all. -/
def TaskResult.hasUsageField : TaskResult → Bool
  | TaskResult.appSuccess => false
  | TaskResult.serverSuccess _ => true

/-- `server.py` task record: `{"status": ..., "result": ..., "error": ...}`. -/
structure ServerRec where
  status : Status
  result : Option TaskResult
  error : Option String
deriving DecidableEq, Repr

/-- `app.py` task record: `{"status": ..., "task": ..., "result": ..., "error": ...}`. -/
structure AppRec where
  status : Status
  task : String
  result : Option TaskResult
  error : Option String
deriving DecidableEq, Repr

/-- Outcome of `await browser_session.start()` under `asyncio.wait_for(..., 60)`:
it completes, times out, or raises with message `m`. -/
inductive StartOutcome
  | ok
  | timeout
  | raises (m : String)
deriving DecidableEq, Repr

/-- Outcome of `await agent.run()`: raises, or returns a (possibly `None`) history. -/
inductive RunOutcome
  | raises (m : String)
  | returns (res : Option AgentHistory)
deriving DecidableEq, Repr

/-- The module-level singleton state of `server.py`: globals `browser_session`
and `llm_model`, plus instrumentation counting constructor calls and recording
which browser objects finished `start()`. -/
structure Provisioner where
  browser_session : Option Nat
  llm_model : Option Nat
  browserConstructions : Nat
  startedBrowsers : List Nat
  llmConstructions : Nat
deriving DecidableEq, Repr

/-- Fresh process state: both globals are `None`. -/
def Provisioner.init : Provisioner :=
  { browser_session := none
    llm_model := none
    browserConstructions := 0
    startedBrowsers := []
    llmConstructions := 0 }

/-- `server.py` lines 53-88, `get_browser()`.  If the global is unset it
constructs a `BrowserSession` and assigns the global **before** awaiting
`start()`; a timeout raises `HTTPException(503, "Browser startup timeout")`
and any other exception raises `HTTPException(503, "Browser unavailable: ...")`,
in both cases leaving the already-assigned global in place. -/
def get_browser (startOut : StartOutcome) (g : Provisioner) :
    Except String Nat × Provisioner :=
  match g.browser_session with
  | some h => (Except.ok h, g)
  | none =>
    let h := g.browserConstructions
    let g1 : Provisioner :=
      { g with browser_session := some h
               browserConstructions := g.browserConstructions + 1 }
    match startOut with
    | StartOutcome.ok =>
        (Except.ok h, { g1 with startedBrowsers := h :: g1.startedBrowsers })
    | StartOutcome.timeout =>
        (Except.error "503: Browser startup timeout", g1)
    | StartOutcome.raises m =>
        (Except.error ("503: Browser unavailable: " ++ m), g1)

/-- `server.py` lines 90-97, `get_llm()`: lazy singleton with no awaits and no
failure path (the `ChatOpenAI` constructor is modelled as non-raising). -/
def get_llm (g : Provisioner) : Nat × Provisioner :=
  match g.llm_model with
  | some h => (h, g)
  | none =>
    let h := g.llmConstructions
    (h, { g with llm_model := some h, llmConstructions := g.llmConstructions + 1 })

/-- `server.py` line 188: `result.usage.model_dump() if result and result.usage
else None` (with `model_dump` the identity on the abstract payload). -/
def usageExpr : Option AgentHistory → Option Usage
  | none => none
  | some h => h.usage

/-- The externally determined outcomes one `server.py` `run_task` execution
meets: how the browser `start()` goes (when a construction happens) and how
`agent.run()` goes. -/
structure ServerEnv where
  startOut : StartOutcome
  runOut : RunOutcome
deriving DecidableEq, Repr

/-- The `try:` body of `server.py` lines 168-189 (`run_task`): set the record
to `running`, acquire browser and LLM, run the agent, then store `completed`
plus the result dict.  An exception produces `Except.error` carrying
`str(e)` together with the record and globals as they stand at the raise. -/
def serverRunTaskAttempt (env : ServerEnv) (g : Provisioner) (rec : ServerRec) :
    Except (String × ServerRec × Provisioner) (ServerRec × Provisioner) :=
  let rec1 : ServerRec := { rec with status := Status.running }
  match get_browser env.startOut g with
  | (Except.error m, g1) => Except.error (m, rec1, g1)
  | (Except.ok _b, g1) =>
    let g2 := (get_llm g1).2
    match env.runOut with
    | RunOutcome.raises m => Except.error (m, rec1, g2)
    | RunOutcome.returns res =>
        Except.ok
          ({ rec1 with status := Status.completed
                       result := some (TaskResult.serverSuccess (usageExpr res)) }, g2)

/-- `server.py` lines 168-196, `run_task` with its `except Exception` handler
(lines 193-196): every exception of the body is caught and recorded as
`status = "failed"`, `error = str(e)`; nothing propagates to the scheduler. -/
def serverRunTask (env : ServerEnv) (g : Provisioner) (rec : ServerRec) :
    ServerRec × Provisioner :=
  match serverRunTaskAttempt env g rec with
  | Except.ok rg => rg
  | Except.error (m, r, g1) => ({ r with status := Status.failed, error := some m }, g1)

/-- Outcome of an awaited call that returns nothing useful: it completes or
raises with message `m`. -/
inductive CallOutcome
  | ok
  | raises (m : String)
deriving DecidableEq, Repr

/-- Externally determined outcomes for one `app.py` `_async_run_task`
execution: `await browser.start()` (no timeout wrapper there), `await
agent.run()`, and `await browser.close()`. -/
structure AppEnv where
  browserStart : CallOutcome
  runOut : RunOutcome
  closeOut : CallOutcome
deriving DecidableEq, Repr

/-- `app.py` lines 115-160, `_async_run_task`, as the list of record states
observable at suspension points and at the end.  The body sets `running`,
starts a per-task browser, runs the agent, stores `completed` and
`{"success": True}`, and only then awaits `browser.close()`; the
`except Exception` handler overwrites `status` with `"failed"` and sets
`error = str(e)` without clearing `result`. -/
def appRunTaskTrace (env : AppEnv) (rec : AppRec) : List AppRec :=
  let rec1 : AppRec := { rec with status := Status.running }
  match env.browserStart with
  | CallOutcome.raises m => [rec1, { rec1 with status := Status.failed, error := some m }]
  | CallOutcome.ok =>
    match env.runOut with
    | RunOutcome.raises m =>
        [rec1, { rec1 with status := Status.failed, error := some m }]
    | RunOutcome.returns _res =>
      let rec2 : AppRec :=
        { rec1 with status := Status.completed, result := some TaskResult.appSuccess }
      match env.closeOut with
      | CallOutcome.ok => [rec1, rec2]
      | CallOutcome.raises m =>
          [rec1, rec2, { rec2 with status := Status.failed, error := some m }]

/-- The record `app.py`'s `_async_run_task` leaves in the store. -/
def appRunTaskFinal (env : AppEnv) (rec : AppRec) : AppRec :=
  (appRunTaskTrace env rec).getLastD rec

/-- Request body of `POST /tasks` (both files, identical model). -/
structure TaskRequest where
  task : String
  custom_task : Option String
deriving DecidableEq, Repr

/-- Response body of `POST /tasks` (both files, identical model). -/
structure TaskResponse where
  task_id : String
  status : String
  message : String
deriving DecidableEq, Repr

/-- Response body of `GET /tasks/{task_id}` (both files, identical model;
`app.py`'s record also stores the task text but the response omits it). -/
structure TaskStatusResponse where
  task_id : String
  status : Status
  result : Option TaskResult
  error : Option String
deriving DecidableEq, Repr

/-- A raised `fastapi.HTTPException`, by status code and detail. -/
inductive HttpError
  | httpException (code : Nat) (detail : String)
deriving DecidableEq, Repr

/-- The built-in default instruction, `app.py` lines 63-73 and `server.py`
lines 122-132 (identical triple-quoted strings). -/
def defaultTask : String :=
  "\n    1. Ve a https://www.guruwalk.com/es\n    2. Haz clic en 'Iniciar sesión' o 'Login'.\n    3. Haz clic en el botón que dice 'Seguir con contraseña' o similar.\n    4. Cuando aparezcan los campos, ingresa el email: heredialucasfac22@gmail.com\n    5. Ingresa la contraseña exacta: Lucas37312237. (incluye el punto al final)\n    6. Haz clic en 'Iniciar sesión' para completar el login.\n    7. Una vez dentro, navega a la sección 'Reservas'.\n    8. Confirma que puedes ver el contenido de Reservas.\n    9. Termina el flujo mostrando que fue exitoso.\n    "

/-- `final_task = request.custom_task if request.custom_task else default_task`
(`app.py` line 75, `server.py` line 134): Python truthiness on an
`Optional[str]` is false for `None` and for the empty string. -/
def resolveTask (custom : Option String) : String :=
  match custom with
  | none => defaultTask
  | some s => if s = "" then defaultTask else s

/-- Lookup in the `tasks` dict, modelled as an association list. -/
def storeFind? {ρ : Type} : List (String × ρ) → String → Option ρ
  | [], _ => none
  | (k, v) :: rest, key => if k = key then some v else storeFind? rest key

/-- Python dict assignment `tasks[key] = v`: overwrite if present, append if not. -/
def storeInsert {ρ : Type} : List (String × ρ) → String → ρ → List (String × ρ)
  | [], key, v => [(key, v)]
  | (k, w) :: rest, key, v =>
      if k = key then (key, v) :: rest else (k, w) :: storeInsert rest key v

/-- The call `background_tasks.add_task(run_task, task_id, final_task)`
(`server.py` line 142): what the scheduler will hand the executor. -/
structure Scheduled where
  task_id : String
  task_text : String
deriving DecidableEq, Repr

/-- `server.py` lines 117-148, `create_task`: mint `task_id` (passed in, the
model of `str(uuid.uuid4())`), resolve the task text, insert a `pending`
record with `result = error = None`, schedule `run_task`, reply `"started"`. -/
def serverCreateTask (store : List (String × ServerRec)) (task_id : String)
    (req : TaskRequest) :
    List (String × ServerRec) × TaskResponse × Scheduled :=
  let final_task := resolveTask req.custom_task
  (storeInsert store task_id
      { status := Status.pending, result := none, error := none },
   { task_id := task_id, status := "started", message := "Task created successfully" },
   { task_id := task_id, task_text := final_task })

/-- `app.py` lines 59-91, `create_task`: same shape, but the record itself
stores the resolved task text and only the `task_id` is handed to the
scheduled `run_agent_task`. -/
def appCreateTask (store : List (String × AppRec)) (task_id : String)
    (req : TaskRequest) :
    List (String × AppRec) × TaskResponse × String :=
  let final_task := resolveTask req.custom_task
  (storeInsert store task_id
      { status := Status.pending, task := final_task, result := none, error := none },
   { task_id := task_id, status := "started", message := "Task created successfully" },
   task_id)

/-- `server.py` lines 150-161, `get_task`: 404 `"Task not found"` for an
unknown id, otherwise the record's fields. -/
def serverGetTask (store : List (String × ServerRec)) (task_id : String) :
    Except HttpError TaskStatusResponse :=
  match storeFind? store task_id with
  | none => Except.error (HttpError.httpException 404 "Task not found")
  | some t =>
      Except.ok { task_id := task_id, status := t.status, result := t.result, error := t.error }

/-- `app.py` lines 93-104, `get_task`: identical behaviour over `app.py` records. -/
def appGetTask (store : List (String × AppRec)) (task_id : String) :
    Except HttpError TaskStatusResponse :=
  match storeFind? store task_id with
  | none => Except.error (HttpError.httpException 404 "Task not found")
  | some t =>
      Except.ok { task_id := task_id, status := t.status, result := t.result, error := t.error }

/-! ### Background operations against the store

`POST /tasks` and the background executor are the only writers of the `tasks`
dict.  An operation sequence models any interleaving of those writers at
store-update granularity. -/

/-- A store-mutating event of `server.py`: an HTTP `create_task`, or a
scheduled `run_task` running to completion.  `run_task` on an id missing from
the store would raise `KeyError` at its first subscript and again inside the
handler, leaving the store unchanged. -/
inductive ServerOp
  | create (task_id : String) (req : TaskRequest)
  | run (task_id : String) (env : ServerEnv)

/-- Effect of one `server.py` operation on `(tasks, globals)`. -/
def serverApplyOp (g : Provisioner) (store : List (String × ServerRec)) :
    ServerOp → List (String × ServerRec) × Provisioner
  | ServerOp.create task_id req => ((serverCreateTask store task_id req).1, g)
  | ServerOp.run task_id env =>
      match storeFind? store task_id with
      | none => (store, g)
      | some rec =>
          let rg := serverRunTask env g rec
          (storeInsert store task_id rg.1, rg.2)

/-- Effect of a sequence of `server.py` operations. -/
def serverApplyOps (g : Provisioner) (store : List (String × ServerRec)) :
    List ServerOp → List (String × ServerRec) × Provisioner
  | [] => (store, g)
  | op :: rest =>
      let sg := serverApplyOp g store op
      serverApplyOps sg.2 sg.1 rest

/-- A store-mutating event of `app.py`: an HTTP `create_task`, or the task's
`_async_run_task` running to completion (it reads the task text out of the
record itself). -/
inductive AppOp
  | create (task_id : String) (req : TaskRequest)
  | run (task_id : String) (env : AppEnv)

/-- Effect of one `app.py` operation on the `tasks` dict. -/
def appApplyOp (store : List (String × AppRec)) : AppOp → List (String × AppRec)
  | AppOp.create task_id req => (appCreateTask store task_id req).1
  | AppOp.run task_id env =>
      match storeFind? store task_id with
      | none => store
      | some rec => storeInsert store task_id (appRunTaskFinal env rec)

/-- Effect of a sequence of `app.py` operations. -/
def appApplyOps (store : List (String × AppRec)) : List AppOp → List (String × AppRec)
  | [] => store
  | op :: rest => appApplyOps (appApplyOp store op) rest

/-! ### Cold-start concurrency for `get_browser()`

`get_browser` is an `async def` running on one event loop: control can change
coroutine only at an `await`.  Its only `await` is
`asyncio.wait_for(browser_session.start(), timeout=60)`, so each caller is a
two-step machine: an atomic prefix (the `None` check, and on the cold path the
`BrowserSession` construction and global assignment) up to that `await`, and
an atomic suffix after it (return the global, or raise).  A caller that finds
the global set returns within its first atomic step. -/

/-- Program counter of one `get_browser()` caller. -/
inductive CallerPC
  | entry
  | awaitingStart (h : Nat)
  | done (ret : Option Nat)
  | raised (m : String)
deriving DecidableEq, Repr

/-- Whether a caller's coroutine has finished (returned or raised). -/
def CallerPC.finished : CallerPC → Bool
  | CallerPC.done _ => true
  | CallerPC.raised _ => true
  | _ => false

/-- The globals `get_browser` touches, with a construction counter. -/
structure BrowserGlobals where
  browser_session : Option Nat
  constructions : Nat
deriving DecidableEq, Repr

/-- One atomic step of one `get_browser()` caller whose `start()` call would
end with `startOut`.  From `entry`: return the cached global, or construct,
assign the global and suspend on `await ... start()`.  From `awaitingStart`:
resume and return the global, or raise the 503 `HTTPException`; the except
branches do not reset the global.  Finished callers do not move. -/
def stepGetBrowser (startOut : StartOutcome) (g : BrowserGlobals) (pc : CallerPC) :
    BrowserGlobals × CallerPC :=
  match pc with
  | CallerPC.entry =>
    match g.browser_session with
    | some _ => (g, CallerPC.done g.browser_session)
    | none =>
        let h := g.constructions
        ({ browser_session := some h, constructions := g.constructions + 1 },
         CallerPC.awaitingStart h)
  | CallerPC.awaitingStart _h =>
    match startOut with
    | StartOutcome.ok => (g, CallerPC.done g.browser_session)
    | StartOutcome.timeout => (g, CallerPC.raised "503: Browser startup timeout")
    | StartOutcome.raises m => (g, CallerPC.raised ("503: Browser unavailable: " ++ m))
  | pc => (g, pc)

/-- N concurrent `get_browser()` callers plus the shared globals. -/
structure BrowserSystem where
  globals : BrowserGlobals
  callers : List CallerPC
deriving DecidableEq, Repr

/-- Cold-start system: global unset, no constructions, `n` callers at entry. -/
def browserSystemInit (n : Nat) : BrowserSystem :=
  { globals := { browser_session := none, constructions := 0 }
    callers := List.replicate n CallerPC.entry }

/-- The scheduler lets caller `i` take its next atomic step (`env i` is that
caller's `start()` outcome); an out-of-range index is a no-op. -/
def schedStep (env : Nat → StartOutcome) (s : BrowserSystem) (i : Nat) : BrowserSystem :=
  match s.callers[i]? with
  | none => s
  | some pc =>
      let gp := stepGetBrowser (env i) s.globals pc
      { globals := gp.1, callers := s.callers.set i gp.2 }

/-- Run an arbitrary schedule (a list of caller indices). -/
def schedRun (env : Nat → StartOutcome) (s : BrowserSystem) : List Nat → BrowserSystem
  | [] => s
  | i :: rest => schedRun env (schedStep env s i) rest

/-- A constant environment where every `start()` call succeeds. -/
def constOk : Nat → StartOutcome := fun _ => StartOutcome.ok

/-- `get_llm()` contains no `await` at all, so under the event loop its calls
are atomic and any concurrent execution of N calls is some sequential order:
iterate it N times, collecting the returned handles. -/
def iterateGetLlm : Nat → Provisioner → Provisioner × List Nat
  | 0, g => (g, [])
  | n + 1, g =>
      let rg := get_llm g
      let gl := iterateGetLlm n rg.2
      (gl.1, rg.1 :: gl.2)

/-- The result/error consistency required by the spec for a record's fields:
both unset while non-terminal, exactly the matching one set when terminal. -/
def statusFieldsConsistent (st : Status) (result : Option TaskResult)
    (error : Option String) : Bool :=
  match st with
  | Status.pending => result.isNone && error.isNone
  | Status.running => result.isNone && error.isNone
  | Status.completed => result.isSome && error.isNone
  | Status.failed => result.isNone && error.isSome

/-! ### Helper lemmas -/

/-- Reading back the key just assigned yields the assigned record. -/
theorem storeFind?_insert_self {ρ : Type} (s : List (String × ρ)) (k : String) (v : ρ) :
    storeFind? (storeInsert s k v) k = some v := by
  induction s with
  | nil => simp [storeInsert, storeFind?]
  | cons hd tl ih =>
    obtain ⟨q, w⟩ := hd
    by_cases hq : q = k
    · simp [storeInsert, hq, storeFind?]
    · simp [storeInsert, hq, storeFind?, ih]

/-- Dict assignment never makes another present key disappear. -/
theorem storeFind?_insert_isSome {ρ : Type} (s : List (String × ρ)) (k key : String)
    (v : ρ) (h : (storeFind? s key).isSome) :
    (storeFind? (storeInsert s k v) key).isSome := by
  induction s with
  | nil => simp [storeFind?] at h
  | cons hd tl ih =>
    obtain ⟨q, w⟩ := hd
    by_cases hq : q = k
    · subst hq
      by_cases hk : q = key
      · subst hk; simp [storeInsert, storeFind?]
      · simp only [storeFind?, hk, ite_false] at h
        simpa [storeInsert, storeFind?, hk] using h
    · by_cases hk : q = key
      · subst hk; simp [storeInsert, storeFind?, hq]
      · simp only [storeFind?, hk, ite_false] at h
        simpa [storeInsert, storeFind?, hq, hk] using ih h

/-- Every `server.py` store operation preserves the presence of a key. -/
theorem serverApplyOp_preserves (g : Provisioner) (store : List (String × ServerRec))
    (op : ServerOp) (key : String) (h : (storeFind? store key).isSome) :
    (storeFind? (serverApplyOp g store op).1 key).isSome := by
  cases op with
  | create task_id req =>
      simpa [serverApplyOp, serverCreateTask] using
        storeFind?_insert_isSome store task_id key _ h
  | run task_id env =>
      cases hf : storeFind? store task_id with
      | none => simpa [serverApplyOp, hf] using h
      | some rec =>
          simpa [serverApplyOp, hf] using
            storeFind?_insert_isSome store task_id key _ h

/-- Presence of a key survives any sequence of `server.py` operations. -/
theorem serverApplyOps_preserves (ops : List ServerOp) :
    ∀ (g : Provisioner) (store : List (String × ServerRec)) (key : String),
      (storeFind? store key).isSome →
      (storeFind? (serverApplyOps g store ops).1 key).isSome := by
  induction ops with
  | nil => intro g store key h; simpa [serverApplyOps] using h
  | cons op rest ih =>
      intro g store key h
      simpa [serverApplyOps] using
        ih _ _ key (serverApplyOp_preserves g store op key h)

/-- Every `app.py` store operation preserves the presence of a key. -/
theorem appApplyOp_preserves (store : List (String × AppRec)) (op : AppOp)
    (key : String) (h : (storeFind? store key).isSome) :
    (storeFind? (appApplyOp store op) key).isSome := by
  cases op with
  | create task_id req =>
      simpa [appApplyOp, appCreateTask] using
        storeFind?_insert_isSome store task_id key _ h
  | run task_id env =>
      cases hf : storeFind? store task_id with
      | none => simpa [appApplyOp, hf] using h
      | some rec =>
          simpa [appApplyOp, hf] using
            storeFind?_insert_isSome store task_id key _ h

/-- Presence of a key survives any sequence of `app.py` operations. -/
theorem appApplyOps_preserves (ops : List AppOp) :
    ∀ (store : List (String × AppRec)) (key : String),
      (storeFind? store key).isSome →
      (storeFind? (appApplyOps store ops) key).isSome := by
  induction ops with
  | nil => intro store key h; simpa [appApplyOps] using h
  | cons op rest ih =>
      intro store key h
      simpa [appApplyOps] using ih _ key (appApplyOp_preserves store op key h)

/-- Invariant of the cold-start system: either nothing has happened yet, or a
single `BrowserSession` (handle 0) was constructed, the global points to it
permanently, and every caller is before the check, suspended on that handle's
`start()`, done with the unique handle, or raised. -/
def browserInv (s : BrowserSystem) : Prop :=
  (s.globals.browser_session = none ∧ s.globals.constructions = 0 ∧
      ∀ pc ∈ s.callers, pc = CallerPC.entry) ∨
  (s.globals.browser_session = some 0 ∧ s.globals.constructions = 1 ∧
      ∀ pc ∈ s.callers,
        pc = CallerPC.entry ∨ pc = CallerPC.awaitingStart 0 ∨
        pc = CallerPC.done (some 0) ∨ ∃ m, pc = CallerPC.raised m)

/-- One scheduler step preserves the invariant. -/
theorem browserInv_step (env : Nat → StartOutcome) (s : BrowserSystem) (i : Nat)
    (h : browserInv s) : browserInv (schedStep env s i) := by
  cases hget : s.callers[i]? with
  | none => simpa [schedStep, hget] using h
  | some pc =>
    have hmem : pc ∈ s.callers := List.getElem?_mem hget
    rcases h with ⟨hbs, hc, hall⟩ | ⟨hbs, hc, hall⟩
    · -- nothing constructed yet: the stepped caller is at entry and constructs
      have hpc : pc = CallerPC.entry := hall pc hmem
      subst hpc
      refine Or.inr ?_
      refine ⟨?_, ?_, ?_⟩
      · simp [schedStep, hget, stepGetBrowser, hbs, hc]
      · simp [schedStep, hget, stepGetBrowser, hbs, hc]
      · intro pc' hmem'
        simp only [schedStep, hget, stepGetBrowser, hbs] at hmem'
        rcases List.mem_or_eq_of_mem_set hmem' with hold | hnew
        · exact Or.inl (hall pc' hold)
        · rw [hnew, hc]
          exact Or.inr (Or.inl rfl)
    · -- the singleton exists: the global and the counter never change again
      refine Or.inr ?_
      have hstep : (stepGetBrowser (env i) s.globals pc).1 = s.globals := by
        rcases hall pc hmem with h1 | h1 | h1 | ⟨m, h1⟩ <;> subst h1 <;>
          cases henv : env i <;> simp [stepGetBrowser, hbs]
      refine ⟨?_, ?_, ?_⟩
      · simp [schedStep, hget, hstep, hbs]
      · simp [schedStep, hget, hstep, hc]
      · intro pc' hmem'
        simp only [schedStep, hget] at hmem'
        rcases List.mem_or_eq_of_mem_set hmem' with hold | hnew
        · exact hall pc' hold
        · rcases hall pc hmem with h1 | h1 | h1 | ⟨m, h1⟩ <;> subst h1
          · rw [hnew]
            simp [stepGetBrowser, hbs]
          · rw [hnew]
            cases henv : env i <;> simp [stepGetBrowser, hbs]
          · rw [hnew]; simp [stepGetBrowser]
          · rw [hnew]; simp [stepGetBrowser]

/-- The invariant holds after any schedule run from an invariant state. -/
theorem browserInv_run (env : Nat → StartOutcome) (sched : List Nat) :
    ∀ s : BrowserSystem, browserInv s → browserInv (schedRun env s sched) := by
  induction sched with
  | nil => intro s h; simpa [schedRun] using h
  | cons i rest ih =>
      intro s h
      simpa [schedRun] using ih _ (browserInv_step env s i h)

/-- Scheduler steps never change the number of callers. -/
theorem schedRun_length (env : Nat → StartOutcome) (sched : List Nat) :
    ∀ s : BrowserSystem, (schedRun env s sched).callers.length = s.callers.length := by
  induction sched with
  | nil => intro s; simp [schedRun]
  | cons i rest ih =>
      intro s
      rw [schedRun, ih]
      cases hget : s.callers[i]? <;> simp [schedStep, hget]

/-- Once the LLM singleton exists, further `get_llm()` calls return it unchanged. -/
theorem iterateGetLlm_warm (m : Nat) :
    ∀ g : Provisioner, g.llm_model = some 0 →
      iterateGetLlm m g = (g, List.replicate m 0) := by
  induction m with
  | zero => intro g hg; simp [iterateGetLlm]
  | succ n ih =>
      intro g hg
      simp [iterateGetLlm, get_llm, hg, ih g hg, List.replicate_succ]

/-! ### Claim theorems -/

/-- C1: the claim that status transitions are one-directional (a record that
reached `completed` never later becomes `failed`) fails on `app.py`: when
`agent.run()` succeeds, `_async_run_task` publishes the record as `completed`
with its result and only then awaits `browser.close()`; if that close raises,
the `except` handler overwrites the terminal `completed` status with `failed`.
The observable status trace of that execution is
`running, completed, failed`. -/
theorem c1_completed_record_flips_to_failed_when_close_raises :
    ((appRunTaskTrace
        { browserStart := CallOutcome.ok
          runOut := RunOutcome.returns (some { usage := none })
          closeOut := CallOutcome.raises "Browser close failed" }
        { status := Status.pending, task := "go to example.com"
          result := none, error := none }).map AppRec.status)
      = [Status.running, Status.completed, Status.failed] ∧
    Status.isTerminal Status.completed = true :=
  ⟨rfl, rfl⟩

/-- C3: the claim that a failed `get_browser()` leaves the cached browser
handle unset fails on `server.py`: the global is assigned *before* `start()`
is awaited and the exception handlers do not clear it, so after a startup
timeout the never-started session (handle 0, absent from `startedBrowsers`)
stays cached, and the next call returns that broken handle with the globals
completely unchanged — no retried construction. -/
theorem c3_failed_startup_keeps_broken_singleton_cached :
    (get_browser StartOutcome.timeout Provisioner.init).1
        = Except.error "503: Browser startup timeout" ∧
    (get_browser StartOutcome.timeout Provisioner.init).2.browser_session = some 0 ∧
    (get_browser StartOutcome.timeout Provisioner.init).2.startedBrowsers = [] ∧
    (get_browser StartOutcome.ok
        (get_browser StartOutcome.timeout Provisioner.init).2).1 = Except.ok 0 ∧
    (get_browser StartOutcome.ok
        (get_browser StartOutcome.timeout Provisioner.init).2).2
      = (get_browser StartOutcome.timeout Provisioner.init).2 :=
  ⟨rfl, rfl, rfl, rfl, rfl⟩

/-- C5: the claim that `result` and `error` are mutually exclusive and
consistent with `status` fails on `app.py`: after a successful run whose
`browser.close()` raises, the final record is `failed` while `result` is still
`{"success": True}` and `error` is set — both non-null on one record, and a
`result` on a non-`completed` record. -/
theorem c5_failed_record_keeps_success_result :
    (appRunTaskFinal
        { browserStart := CallOutcome.ok
          runOut := RunOutcome.returns none
          closeOut := CallOutcome.raises "close boom" }
        { status := Status.pending, task := "t", result := none, error := none }).status
      = Status.failed ∧
    (appRunTaskFinal
        { browserStart := CallOutcome.ok
          runOut := RunOutcome.returns none
          closeOut := CallOutcome.raises "close boom" }
        { status := Status.pending, task := "t", result := none, error := none }).result
      = some TaskResult.appSuccess ∧
    (appRunTaskFinal
        { browserStart := CallOutcome.ok
          runOut := RunOutcome.returns none
          closeOut := CallOutcome.raises "close boom" }
        { status := Status.pending, task := "t", result := none, error := none }).error
      = some "close boom" ∧
    statusFieldsConsistent Status.failed (some TaskResult.appSuccess) (some "close boom")
      = false :=
  ⟨rfl, rfl, rfl, rfl⟩

/-- C6 counterexample: the claim that a successful execution always stores
`result = {success: true, usage: <metrics or null>}` fails on `app.py`: even
when the agent's history carries usage metrics, `_async_run_task` stores
`{"success": True}` with no `usage` key at all. -/
theorem c6_app_success_result_lacks_usage_field :
    (appRunTaskFinal
        { browserStart := CallOutcome.ok
          runOut := RunOutcome.returns (some { usage := some 7 })
          closeOut := CallOutcome.ok }
        { status := Status.pending, task := "t2", result := none, error := none }).status
      = Status.completed ∧
    (appRunTaskFinal
        { browserStart := CallOutcome.ok
          runOut := RunOutcome.returns (some { usage := some 7 })
          closeOut := CallOutcome.ok }
        { status := Status.pending, task := "t2", result := none, error := none }).result
      = some TaskResult.appSuccess ∧
    TaskResult.hasUsageField TaskResult.appSuccess = false :=
  ⟨rfl, rfl, rfl⟩

/-- C9 counterexample: the claim that a present `custom_task` reaches the
executor verbatim fails for the present-but-empty string: submitting
`custom_task = ""` schedules the built-in default instruction (a non-empty
text) instead of `""`. -/
theorem c9_empty_custom_task_is_not_passed_verbatim :
    (serverCreateTask [] "tid-c9"
        { task := "default", custom_task := some "" }).2.2.task_text = defaultTask ∧
    defaultTask ≠ "" :=
  ⟨rfl, by decide⟩

/-- C2: failures inside the background unit of work are caught there and
recorded, never propagated.  For `server.py`'s `run_task`: the final record is
always terminal (never left at `running`); whatever exception the try-body
raises, the handler records `failed` with `error = str(e)`; and a cold-start
execution whose browser provisioning times out or raises ends `failed` with a
non-empty error.  `app.py`'s `_async_run_task` likewise always finalizes to a
terminal state. -/
theorem c2_background_failures_caught_and_recorded
    (env : ServerEnv) (g : Provisioner) (rec : ServerRec)
    (aenv : AppEnv) (arec : AppRec) :
    ((serverRunTask env g rec).1.status = Status.completed ∨
        (serverRunTask env g rec).1.status = Status.failed) ∧
    (∀ m r g1, serverRunTaskAttempt env g rec = Except.error (m, r, g1) →
        (serverRunTask env g rec).1.status = Status.failed ∧
        (serverRunTask env g rec).1.error = some m) ∧
    (g.browser_session = none → env.startOut ≠ StartOutcome.ok →
        (serverRunTask env g rec).1.status = Status.failed ∧
        ∃ e, (serverRunTask env g rec).1.error = some e ∧ e ≠ "") ∧
    ((appRunTaskFinal aenv arec).status = Status.completed ∨
        (appRunTaskFinal aenv arec).status = Status.failed) := by
  obtain ⟨so, ro⟩ := env
  refine ⟨?_, ?_, ?_, ?_⟩
  · cases hbs : g.browser_session <;> cases so <;> cases ro <;>
      simp [serverRunTask, serverRunTaskAttempt, get_browser, hbs]
  · intro m r g1 ha
    simp [serverRunTask, ha]
  · intro hbs hso
    cases so with
    | ok => exact absurd rfl hso
    | timeout =>
        constructor
        · cases ro <;> simp [serverRunTask, serverRunTaskAttempt, get_browser, hbs]
        · refine ⟨"503: Browser startup timeout", ?_, by decide⟩
          cases ro <;> simp [serverRunTask, serverRunTaskAttempt, get_browser, hbs]
    | raises m =>
        constructor
        · cases ro <;> simp [serverRunTask, serverRunTaskAttempt, get_browser, hbs]
        · refine ⟨"503: Browser unavailable: " ++ m, ?_, ?_⟩
          · cases ro <;> simp [serverRunTask, serverRunTaskAttempt, get_browser, hbs]
          · intro hemp
            have h2 := congrArg String.data hemp
            simp at h2
  · obtain ⟨bo, aro, co⟩ := aenv
    cases bo <;> cases aro <;> cases co <;> simp [appRunTaskFinal, appRunTaskTrace]

/-- C2 witness: a cold-start execution whose browser startup times out ends
with the record `failed`, caught inside the unit of work. -/
theorem c2_witness :
    (serverRunTask { startOut := StartOutcome.timeout, runOut := RunOutcome.returns none }
        Provisioner.init
        { status := Status.pending, result := none, error := none }).1.status
      = Status.failed :=
  ((c2_background_failures_caught_and_recorded
      { startOut := StartOutcome.timeout, runOut := RunOutcome.returns none }
      Provisioner.init
      { status := Status.pending, result := none, error := none }
      { browserStart := CallOutcome.ok, runOut := RunOutcome.returns none
        closeOut := CallOutcome.ok }
      { status := Status.pending, task := "w", result := none, error := none }).2.2.1
    rfl (by decide)).1

/-- C4: `get_browser`'s check-construct-assign prefix contains no `await` (its
only suspension point is `await asyncio.wait_for(....start(), 60)`), so under
the event loop's cooperative scheduling any interleaving of `n ≥ 1` cold-start
callers that runs every caller to completion performs exactly one
`BrowserSession` construction, and every caller that returns receives the one
singleton (handle 0).  `get_llm` contains no `await` at all, so `m ≥ 1`
concurrent calls are some sequential order of atomic calls: one construction,
every caller handed handle 0. -/
theorem c4_cold_start_single_construction
    (n : Nat) (env : Nat → StartOutcome) (sched : List Nat) (hn : 0 < n)
    (hfin : ∀ pc ∈ (schedRun env (browserSystemInit n) sched).callers,
        pc.finished = true) :
    (schedRun env (browserSystemInit n) sched).globals.constructions = 1 ∧
    (∀ pc ∈ (schedRun env (browserSystemInit n) sched).callers,
        ∀ r, pc = CallerPC.done r → r = some 0) ∧
    (∀ m : Nat, 0 < m →
        (iterateGetLlm m Provisioner.init).1.llmConstructions = 1 ∧
        (iterateGetLlm m Provisioner.init).2 = List.replicate m 0) := by
  have hinv : browserInv (schedRun env (browserSystemInit n) sched) := by
    apply browserInv_run
    exact Or.inl ⟨rfl, rfl, fun pc hm => List.eq_of_mem_replicate hm⟩
  rcases hinv with ⟨hbs, hc, hall⟩ | ⟨hbs, hc, hall⟩
  · exfalso
    have hlen : (schedRun env (browserSystemInit n) sched).callers.length = n := by
      rw [schedRun_length]; simp [browserSystemInit]
    obtain ⟨pc, hpc⟩ :=
      List.exists_mem_of_length_pos
        (show 0 < (schedRun env (browserSystemInit n) sched).callers.length by omega)
    have h1 := hall pc hpc
    have h2 := hfin pc hpc
    rw [h1] at h2
    exact absurd h2 (by decide)
  · refine ⟨hc, ?_, ?_⟩
    · intro pc hm r hr
      subst hr
      rcases hall _ hm with h1 | h1 | h1 | ⟨m, h1⟩
      · exact absurd h1 (by simp)
      · exact absurd h1 (by simp)
      · injection h1
      · exact absurd h1 (by simp)
    · intro m hm
      cases m with
      | zero => omega
      | succ k =>
          have hw := iterateGetLlm_warm k
            { browser_session := none, llm_model := some 0, browserConstructions := 0
              startedBrowsers := [], llmConstructions := 1 } rfl
          constructor
          · simp [iterateGetLlm, get_llm, Provisioner.init, hw]
          · simp [iterateGetLlm, get_llm, Provisioner.init, hw, List.replicate_succ]

/-- C4 witness: two concurrent cold-start callers under the schedule
`[0, 1, 0]` (caller 0 constructs and suspends on `start()`, caller 1 runs to
completion, caller 0 resumes) both finish, and exactly one construction
happened. -/
theorem c4_witness :
    (schedRun constOk (browserSystemInit 2) [0, 1, 0]).globals.constructions = 1 :=
  (c4_cold_start_single_construction 2 constOk [0, 1, 0] (by decide) (by decide)).1

/-- C6 amended: on a successful `agent.run()`, `server.py`'s `run_task` stores
`completed` with `result = {success: true, usage: <metrics or null>}` exactly
as claimed, while `app.py`'s `_async_run_task` stores `completed` with
`result = {success: true}` — success flag but no usage field. -/
theorem c6_success_result_shapes
    (so : StartOutcome) (g : Provisioner) (rec : ServerRec)
    (res : Option AgentHistory) (arec : AppRec) (res2 : Option AgentHistory)
    (hb : so = StartOutcome.ok ∨ g.browser_session ≠ none) :
    (serverRunTask { startOut := so, runOut := RunOutcome.returns res } g rec).1.status
      = Status.completed ∧
    (serverRunTask { startOut := so, runOut := RunOutcome.returns res } g rec).1.result
      = some (TaskResult.serverSuccess (usageExpr res)) ∧
    (TaskResult.serverSuccess (usageExpr res)).successValue = true ∧
    (TaskResult.serverSuccess (usageExpr res)).hasUsageField = true ∧
    (appRunTaskFinal
        { browserStart := CallOutcome.ok, runOut := RunOutcome.returns res2
          closeOut := CallOutcome.ok } arec).status = Status.completed ∧
    (appRunTaskFinal
        { browserStart := CallOutcome.ok, runOut := RunOutcome.returns res2
          closeOut := CallOutcome.ok } arec).result = some TaskResult.appSuccess := by
  refine ⟨?_, ?_, rfl, rfl, rfl, rfl⟩
  all_goals
    rcases hb with hb | hb
    · subst hb
      cases hbs : g.browser_session <;>
        simp [serverRunTask, serverRunTaskAttempt, get_browser, hbs]
    · cases hbs : g.browser_session
      · exact absurd hbs hb
      · simp [serverRunTask, serverRunTaskAttempt, get_browser, hbs]

/-- C6 witness: a successful cold-start run on `server.py` stores the claimed
result shape with the agent's usage metrics. -/
theorem c6_witness :
    (serverRunTask
        { startOut := StartOutcome.ok
          runOut := RunOutcome.returns (some { usage := some 3 }) }
        Provisioner.init
        { status := Status.pending, result := none, error := none }).1.result
      = some (TaskResult.serverSuccess (usageExpr (some { usage := some 3 }))) :=
  (c6_success_result_shapes StartOutcome.ok Provisioner.init
      { status := Status.pending, result := none, error := none }
      (some { usage := some 3 })
      { status := Status.pending, task := "w6", result := none, error := none }
      none (Or.inl rfl)).2.1

/-- C7: submitting with a fresh identifier (`uuid4` collision-freedom is the
modelling assumption stated as the freshness hypotheses) acknowledges with
`status = "started"`, inserts the record with status `pending` and both
`result` and `error` unset before returning, and an immediate status lookup
observes a state in `{pending, running}` — never a terminal state — in both
`server.py` and `app.py`. -/
theorem c7_submit_inserts_pending_and_acknowledges_started
    (store : List (String × ServerRec)) (astore : List (String × AppRec))
    (task_id : String) (req : TaskRequest)
    (_hfresh : storeFind? store task_id = none)
    (_hafresh : storeFind? astore task_id = none) :
    (serverCreateTask store task_id req).2.1
      = { task_id := task_id, status := "started"
          message := "Task created successfully" } ∧
    (appCreateTask astore task_id req).2.1
      = { task_id := task_id, status := "started"
          message := "Task created successfully" } ∧
    storeFind? (serverCreateTask store task_id req).1 task_id
      = some { status := Status.pending, result := none, error := none } ∧
    storeFind? (appCreateTask astore task_id req).1 task_id
      = some { status := Status.pending, task := resolveTask req.custom_task
               result := none, error := none } ∧
    (∀ resp, serverGetTask (serverCreateTask store task_id req).1 task_id
        = Except.ok resp →
        (resp.status = Status.pending ∨ resp.status = Status.running) ∧
        resp.status.isTerminal = false) ∧
    (∀ resp, appGetTask (appCreateTask astore task_id req).1 task_id
        = Except.ok resp →
        (resp.status = Status.pending ∨ resp.status = Status.running) ∧
        resp.status.isTerminal = false) := by
  refine ⟨rfl, rfl, ?_, ?_, ?_, ?_⟩
  · simp [serverCreateTask, storeFind?_insert_self]
  · simp [appCreateTask, storeFind?_insert_self]
  · intro resp hresp
    simp [serverGetTask, serverCreateTask, storeFind?_insert_self] at hresp
    rw [← hresp]
    exact ⟨Or.inl rfl, rfl⟩
  · intro resp hresp
    simp [appGetTask, appCreateTask, storeFind?_insert_self] at hresp
    rw [← hresp]
    exact ⟨Or.inl rfl, rfl⟩

/-- C7 witness: the first submission into an empty store acknowledges with
`"started"`. -/
theorem c7_witness :
    (serverCreateTask [] "w7-id" { task := "default", custom_task := none }).2.1
      = { task_id := "w7-id", status := "started"
          message := "Task created successfully" } :=
  (c7_submit_inserts_pending_and_acknowledges_started [] [] "w7-id"
      { task := "default", custom_task := none } rfl rfl).1

/-- C8: looking up an identifier missing from the store yields the 404
`"Task not found"` error in both files, and an identifier returned by
`create_task` is still found — never `NotFound` — after any subsequent
sequence of store operations (further creations and background executions). -/
theorem c8_unknown_id_404_created_id_always_found
    (store : List (String × ServerRec)) (astore : List (String × AppRec))
    (key : String) (g : Provisioner) (req : TaskRequest)
    (ops : List ServerOp) (aops : List AppOp) :
    (storeFind? store key = none →
        serverGetTask store key
          = Except.error (HttpError.httpException 404 "Task not found")) ∧
    (storeFind? astore key = none →
        appGetTask astore key
          = Except.error (HttpError.httpException 404 "Task not found")) ∧
    (∃ resp, serverGetTask (serverApplyOps g (serverCreateTask store key req).1 ops).1 key
        = Except.ok resp) ∧
    (∃ resp, appGetTask (appApplyOps (appCreateTask astore key req).1 aops) key
        = Except.ok resp) := by
  refine ⟨?_, ?_, ?_, ?_⟩
  · intro h; simp [serverGetTask, h]
  · intro h; simp [appGetTask, h]
  · have h0 : (storeFind? (serverCreateTask store key req).1 key).isSome := by
      simp [serverCreateTask, storeFind?_insert_self]
    have h1 := serverApplyOps_preserves ops g _ key h0
    cases hf : storeFind? (serverApplyOps g (serverCreateTask store key req).1 ops).1 key with
    | none => rw [hf] at h1; simp at h1
    | some t =>
        exact ⟨{ task_id := key, status := t.status, result := t.result, error := t.error },
          by simp [serverGetTask, hf]⟩
  · have h0 : (storeFind? (appCreateTask astore key req).1 key).isSome := by
      simp [appCreateTask, storeFind?_insert_self]
    have h1 := appApplyOps_preserves aops _ key h0
    cases hf : storeFind? (appApplyOps (appCreateTask astore key req).1 aops) key with
    | none => rw [hf] at h1; simp at h1
    | some t =>
        exact ⟨{ task_id := key, status := t.status, result := t.result, error := t.error },
          by simp [appGetTask, hf]⟩

/-- C8 witness: a lookup on an empty store signals the 404 error. -/
theorem c8_witness :
    serverGetTask [] "missing-id"
      = Except.error (HttpError.httpException 404 "Task not found") :=
  (c8_unknown_id_404_created_id_always_found [] [] "missing-id" Provisioner.init
      { task := "default", custom_task := none } [] []).1 rfl

/-- C9 amended: the executor receives the resolved instruction, which is the
custom task verbatim when one is supplied *and non-empty*, and the built-in
default text when the custom task is absent or the empty string (resolution
tests Python truthiness, not presence). -/
theorem c9_instruction_resolution
    (store : List (String × ServerRec)) (astore : List (String × AppRec))
    (task_id : String) (req : TaskRequest) :
    (serverCreateTask store task_id req).2.2.task_text = resolveTask req.custom_task ∧
    storeFind? (appCreateTask astore task_id req).1 task_id
      = some { status := Status.pending, task := resolveTask req.custom_task
               result := none, error := none } ∧
    (req.custom_task = none → resolveTask req.custom_task = defaultTask) ∧
    (∀ s, req.custom_task = some s → s ≠ "" → resolveTask req.custom_task = s) ∧
    (req.custom_task = some "" → resolveTask req.custom_task = defaultTask) := by
  refine ⟨rfl, ?_, ?_, ?_, ?_⟩
  · simp [appCreateTask, storeFind?_insert_self]
  · intro h; simp [resolveTask, h]
  · intro s h hne; simp [resolveTask, h, hne]
  · intro h; simp [resolveTask, h]

/-- C9 witness: a non-empty custom task is handed over verbatim. -/
theorem c9_witness :
    resolveTask (some "go to example.com") = "go to example.com" :=
  (c9_instruction_resolution [] [] "w9"
      { task := "default", custom_task := some "go to example.com" }).2.2.2.1
    "go to example.com" rfl (by decide)

/-- C10: a submission carrying `custom_task = ""` reaches the executor as the
built-in default instruction, not as the empty string, in both files; the
override applies exactly to non-empty strings because line 75 of `app.py` and
line 134 of `server.py` test the string's truthiness. -/
theorem c10_empty_custom_task_falls_back_to_default
    (store : List (String × ServerRec)) (astore : List (String × AppRec))
    (task_id : String) (task : String) :
    (serverCreateTask store task_id { task := task, custom_task := some "" }).2.2.task_text
      = defaultTask ∧
    storeFind? (appCreateTask astore task_id
        { task := task, custom_task := some "" }).1 task_id
      = some { status := Status.pending, task := defaultTask
               result := none, error := none } ∧
    defaultTask ≠ "" ∧
    (∀ s : String, s ≠ "" → resolveTask (some s) = s) := by
  refine ⟨rfl, ?_, by decide, ?_⟩
  · simp [appCreateTask, storeFind?_insert_self, resolveTask]
  · intro s h; simp [resolveTask, h]

/-- C10 witness: a concrete non-empty custom task is not overridden. -/
theorem c10_witness :
    resolveTask (some "open the dashboard") = "open the dashboard" :=
  (c10_empty_custom_task_falls_back_to_default [] [] "w10" "default").2.2.2
    "open the dashboard" (by decide)

end GuruwalkAgent
